import Mathlib

/-!
# Verification of the Expensync receipt-fraud pipeline
Shallow embedding of `src/ai/receipt_fraud_detector.py` (class
`ReceiptFraudDetector`) and proofs about its behaviour.

Conventions used throughout:
* Python floats are modelled as rationals (exact arithmetic).
* Python dicts with string keys are modelled as insertion-ordered
  association lists with unique keys (`dictGet` / `dictSet` / `dictUpdate`
  mirror `d[k]`, `d[k] = v` and `d.update(...)`).
* Dynamic JSON-shaped values are modelled by the inductive `JVal`;
  Python truthiness is `pyTruthy`.
* External collaborators (Supabase store, Groq reasoning service, image
  fetch) are modelled as oracles in an `Env` record; analyzers whose body
  is one network call are modelled as `Except`-valued oracle results, the
  orchestrator-side handling of those results is embedded from the source.
-/

namespace Expensync

/-- Dynamic JSON-shaped value (Python objects flowing through the
detector's dicts). -/
inductive JVal where
  | null
  | bool (b : Bool)
  | num (q : ℚ)
  | str (s : String)
  | list (xs : List JVal)
  | dict (kvs : List (String × JVal))

/-- Python dict lookup `d.get(k)` on a string-keyed dict. -/
def dictGet (d : List (String × JVal)) (k : String) : Option JVal :=
  match d with
  | [] => none
  | (k', v) :: rest => if k' = k then some v else dictGet rest k

/-- Python dict assignment `d[k] = v`: replaces the value of an existing
key in place, otherwise appends (insertion order is preserved, as in
Python). -/
def dictSet (d : List (String × JVal)) (k : String) (v : JVal) :
    List (String × JVal) :=
  match d with
  | [] => [(k, v)]
  | (k', v') :: rest =>
      if k' = k then (k, v) :: rest else (k', v') :: dictSet rest k v

/-- Python `d.update(new)`: assigns every key of `new` into `d`,
later writes overwriting earlier ones on key collision. -/
def dictUpdate (d new : List (String × JVal)) : List (String × JVal) :=
  new.foldl (fun acc kv => dictSet acc kv.1 kv.2) d

/-- Python truthiness of a `JVal`. -/
def pyTruthy : JVal → Bool
  | .null => false
  | .bool b => b
  | .num q => q ≠ 0
  | .str s => s ≠ ""
  | .list xs => !xs.isEmpty
  | .dict kvs => !kvs.isEmpty

/-- Python truthiness of an optional string (`None` and `""` are falsy). -/
def truthyStr : Option String → Bool
  | none => false
  | some s => s ≠ ""

/-- Python truthiness of an optional number (`None` and `0.0` are falsy). -/
def truthyNum : Option ℚ → Bool
  | none => false
  | some q => q ≠ 0

/-- Python `bool` used as an integer inside `sum(...)` (`True` counts 1). -/
def boolScore (b : Bool) : ℕ := if b then 1 else 0

/-- Python `int(q)` on a float: truncation toward zero. -/
def pyInt (q : ℚ) : ℤ := if 0 ≤ q then ⌊q⌋ else ⌈q⌉

/-- Model of `_assess_image_quality` (receipt_fraud_detector.py lines 933-947):
fixed-threshold categorical quality assessment, first match wins. -/
def assessImageQuality (blur brightness contrast noise compression : ℚ) :
    String :=
  if blur < 100 then "Poor quality - Image is too blurry"
  else if brightness < 50 ∨ brightness > 200 then
    "Poor quality - Incorrect brightness"
  else if contrast < 30 then "Poor quality - Low contrast"
  else if noise > 20 then "Poor quality - High noise level"
  else if compression > 1/2 then "Poor quality - Heavy compression artifacts"
  else "Good quality"

/-- Mutable per-run state of a `ReceiptFraudDetector` instance
(`__init__`, lines 48-57): the accumulating risk-factor list, the merged
result mappings, the extracted texts and the lower-cased expense
category. -/
structure DetectorState where
  risk_factors : List String := []
  verification_results : List (String × JVal) := []
  image_analysis_results : List (String × JVal) := []
  online_verification_results : List (String × JVal) := []
  original_text : String := ""
  enhanced_text : String := ""
  llm_ocr_text : String := ""
  llm_structured_data : List (String × JVal) := []
  expense_category : String := ""

/-- Model of `_get_llm_risk_score` (lines 1235-1238): stub, always `0.0`. -/
def llmRiskScore (_st : DetectorState) : ℚ := 0

/-- Model of `_get_image_risk_score` (lines 1240-1243): stub, always `0.0`. -/
def imageRiskScore (_st : DetectorState) : ℚ := 0

/-- Model of `_get_verification_risk_score` (lines 1245-1248): stub, always `0.0`. -/
def verificationRiskScore (_st : DetectorState) : ℚ := 0

/-- Model of `_get_pattern_risk_score` (lines 1250-1253): stub, always `0.0`. -/
def patternRiskScore (_st : DetectorState) : ℚ := 0

/-- Model of `_get_verification_confidence` (lines 1255-1258): stub, always `0.0`. -/
def verificationConfidence (_st : DetectorState) : ℚ := 0

/-- Python `abs(v)` on a dynamic value: defined for numbers and booleans
(bool is an int subtype); raises `TypeError` (modelled as `none`) on
anything else. -/
def jAbs : JVal → Option ℚ
  | .num q => some |q|
  | .bool b => some (if b then 1 else 0)
  | _ => none

/-- The compound condition `k in vr and not vr[k]` used throughout
`_get_category_specific_risk_score`. -/
def keyFalsy (vr : List (String × JVal)) (k : String) : Bool :=
  match dictGet vr k with
  | some v => !pyTruthy v
  | none => false

/-- The `price_discrepancy` branch of `_get_category_specific_risk_score`
(lines 1274-1282). `none` models the `TypeError` raised by `abs` on a
non-numeric value, which the surrounding handler converts to a `0.0`
score. -/
def priceDiscrepancyFactors (vr : List (String × JVal)) : Option (List ℚ) :=
  match dictGet vr "price_discrepancy" with
  | none => some []
  | some v =>
      match jAbs v with
      | none => none
      | some d =>
          some (if d > 1/2 then [1]
                else if d > 1/5 then [7/10]
                else if d > 1/10 then [2/5]
                else [])

/-- Model of `_get_category_specific_risk_score` (lines 1260-1311). A truthy
non-dict value under the `{category}_verification` key either raises on
the first subscript (caught, score `0.0`) or matches no key at all
(empty factor list, score `0.0`), so all non-dict shapes score 0. -/
def categorySpecificRiskScore (st : DetectorState) : ℚ :=
  let category := st.expense_category
  if category = "" then 0
  else
    match dictGet st.verification_results (category ++ "_verification") with
    | none => 0
    | some v =>
        if !pyTruthy v then 0
        else
          match v with
          | .dict vr =>
              match priceDiscrepancyFactors vr with
              | none => 0
              | some fs0 =>
                  let fs := fs0
                    ++ (if keyFalsy vr "location_verification" then [4/5]
                        else if keyFalsy vr "route_verification" then [4/5]
                        else [])
                    ++ (if keyFalsy vr "time_verification" then [3/5]
                        else if keyFalsy vr "date_verification" then [3/5]
                        else [])
                    ++ (if keyFalsy vr "service_verification" then [7/10]
                        else if keyFalsy vr "restaurant_verification" then
                          [7/10]
                        else [])
                    ++ (if category = "food" ∧
                          keyFalsy vr "menu_verification" = true then [1/2]
                        else [])
                  if fs.isEmpty then 0 else fs.sum / fs.length
          | _ => 0

/-- The weighted sum in `_calculate_risk_score` (lines 402-420):
`sum(score * weights[category] ...)` with weights
llm 0.3, image 0.25, online 0.15, pattern 0.1, category-specific 0.2. -/
def weightedRiskScore (llm img onl pat cat : ℚ) : ℚ :=
  llm * (3/10) + img * (25/100) + onl * (15/100) + pat * (1/10) +
    cat * (2/10)

/-- Model of `_calculate_risk_score` (lines 402-420). -/
def calculateRiskScore (st : DetectorState) : ℚ :=
  weightedRiskScore (llmRiskScore st) (imageRiskScore st)
    (verificationRiskScore st) (patternRiskScore st)
    (categorySpecificRiskScore st)

/-- The blend `(risk_score * 0.7) + (verification_confidence * 0.3)` in
`_calculate_fraud_probability` (line 429). -/
def fraudBlend (riskScore confidence : ℚ) : ℚ :=
  riskScore * (7/10) + confidence * (3/10)

/-- Model of `_calculate_fraud_probability` (lines 422-429). -/
def calculateFraudProbability (st : DetectorState) : ℚ :=
  fraudBlend (calculateRiskScore st) (verificationConfidence st)

end Expensync

namespace Expensync

/-- Claim C6: `_assess_image_quality` applies its fixed thresholds in
priority order (blur, then brightness, then contrast, then noise, then
compression, else good), first match winning; in particular any input
with blur score 50 is assessed as too blurry regardless of the other
four metrics. -/
theorem assessImageQuality_priority_order :
    (∀ br c n cp : ℚ,
      assessImageQuality 50 br c n cp = "Poor quality - Image is too blurry") ∧
    (∀ b br c n cp : ℚ, b < 100 →
      assessImageQuality b br c n cp = "Poor quality - Image is too blurry") ∧
    (∀ b br c n cp : ℚ, 100 ≤ b → (br < 50 ∨ 200 < br) →
      assessImageQuality b br c n cp = "Poor quality - Incorrect brightness") ∧
    (∀ b br c n cp : ℚ, 100 ≤ b → 50 ≤ br → br ≤ 200 → c < 30 →
      assessImageQuality b br c n cp = "Poor quality - Low contrast") ∧
    (∀ b br c n cp : ℚ, 100 ≤ b → 50 ≤ br → br ≤ 200 → 30 ≤ c → 20 < n →
      assessImageQuality b br c n cp = "Poor quality - High noise level") ∧
    (∀ b br c n cp : ℚ, 100 ≤ b → 50 ≤ br → br ≤ 200 → 30 ≤ c → n ≤ 20 →
      1/2 < cp →
      assessImageQuality b br c n cp =
        "Poor quality - Heavy compression artifacts") ∧
    (∀ b br c n cp : ℚ, 100 ≤ b → 50 ≤ br → br ≤ 200 → 30 ≤ c → n ≤ 20 →
      cp ≤ 1/2 →
      assessImageQuality b br c n cp = "Good quality") := by
  refine ⟨?_, ?_, ?_, ?_, ?_, ?_, ?_⟩ <;> intros <;>
    unfold assessImageQuality <;>
    split_ifs <;> first | rfl | (exfalso; first | linarith | tauto |
      (rcases ‹_ ∨ _› with h | h <;> linarith))

/-- Witness for C6: each branch of the priority order reached at a
concrete input. -/
theorem assessImageQuality_priority_order_witness :
    assessImageQuality 50 300 0 100 1 = "Poor quality - Image is too blurry" ∧
    assessImageQuality 150 300 0 0 0 = "Poor quality - Incorrect brightness" ∧
    assessImageQuality 150 100 10 0 0 = "Poor quality - Low contrast" ∧
    assessImageQuality 150 100 40 25 0 = "Poor quality - High noise level" ∧
    assessImageQuality 150 100 40 10 1 =
      "Poor quality - Heavy compression artifacts" ∧
    assessImageQuality 150 100 40 10 0 = "Good quality" :=
  ⟨assessImageQuality_priority_order.1 300 0 100 1,
   assessImageQuality_priority_order.2.2.1 150 300 0 0 0 (by norm_num)
     (Or.inr (by norm_num)),
   assessImageQuality_priority_order.2.2.2.1 150 100 10 0 0 (by norm_num)
     (by norm_num) (by norm_num) (by norm_num),
   assessImageQuality_priority_order.2.2.2.2.1 150 100 40 25 0 (by norm_num)
     (by norm_num) (by norm_num) (by norm_num) (by norm_num),
   assessImageQuality_priority_order.2.2.2.2.2.1 150 100 40 10 1 (by norm_num)
     (by norm_num) (by norm_num) (by norm_num) (by norm_num) (by norm_num),
   assessImageQuality_priority_order.2.2.2.2.2.2 150 100 40 10 0 (by norm_num)
     (by norm_num) (by norm_num) (by norm_num) (by norm_num) (by norm_num)⟩

end Expensync

namespace Expensync

/-- Claim C3: `_calculate_risk_score` equals the weighted sum
0.3*llm + 0.25*image + 0.15*online + 0.1*pattern + 0.2*category over the
five per-category scores; the weights sum to 1.0, and for category
scores each in [0,1] the weighted sum lies in [0,1]. -/
theorem calculateRiskScore_weighted_sum :
    (∀ st : DetectorState,
      calculateRiskScore st =
        (3/10) * llmRiskScore st + (25/100) * imageRiskScore st +
          (15/100) * verificationRiskScore st +
          (1/10) * patternRiskScore st +
          (2/10) * categorySpecificRiskScore st) ∧
    ((3/10 : ℚ) + 25/100 + 15/100 + 1/10 + 2/10 = 1) ∧
    (∀ l i o p c : ℚ, 0 ≤ l → l ≤ 1 → 0 ≤ i → i ≤ 1 → 0 ≤ o → o ≤ 1 →
      0 ≤ p → p ≤ 1 → 0 ≤ c → c ≤ 1 →
      0 ≤ weightedRiskScore l i o p c ∧ weightedRiskScore l i o p c ≤ 1) := by
  refine ⟨fun st => by unfold calculateRiskScore weightedRiskScore; ring,
    by norm_num, ?_⟩
  intro l i o p c hl0 hl1 hi0 hi1 ho0 ho1 hp0 hp1 hc0 hc1
  unfold weightedRiskScore
  constructor <;> nlinarith

/-- Witness for C3: the bound applied at concrete in-range scores. -/
theorem calculateRiskScore_weighted_sum_witness :
    0 ≤ weightedRiskScore 1 (1/2) 0 1 (1/2) ∧
      weightedRiskScore 1 (1/2) 0 1 (1/2) ≤ 1 :=
  calculateRiskScore_weighted_sum.2.2 1 (1/2) 0 1 (1/2)
    (by norm_num) (by norm_num) (by norm_num) (by norm_num) (by norm_num)
    (by norm_num) (by norm_num) (by norm_num) (by norm_num) (by norm_num)

/-- Claim C4: `_calculate_fraud_probability` returns exactly
0.7*risk_score + 0.3*verification_confidence, and for both inputs in
[0,1] the blend lies in [0,1] with no clamping. -/
theorem fraudProbability_blend :
    (∀ st : DetectorState,
      calculateFraudProbability st =
        (7/10) * calculateRiskScore st +
          (3/10) * verificationConfidence st) ∧
    (∀ r c : ℚ, 0 ≤ r → r ≤ 1 → 0 ≤ c → c ≤ 1 →
      0 ≤ fraudBlend r c ∧ fraudBlend r c ≤ 1) := by
  refine ⟨fun st => by unfold calculateFraudProbability fraudBlend; ring, ?_⟩
  intro r c hr0 hr1 hc0 hc1
  unfold fraudBlend
  constructor <;> nlinarith

/-- Witness for C4: the bound applied at concrete in-range inputs. -/
theorem fraudProbability_blend_witness :
    0 ≤ fraudBlend (9/10) (1/2) ∧ fraudBlend (9/10) (1/2) ≤ 1 :=
  fraudProbability_blend.2 (9/10) (1/2)
    (by norm_num) (by norm_num) (by norm_num) (by norm_num)

end Expensync

namespace Expensync

/-- Numeric value of a decimal digit character. -/
def digitVal (c : Char) : ℕ := c.toNat - '0'.toNat

/-- CPython `strptime` directive `%Y`: the regex `\d\d\d\d`, exactly four
digits. -/
def parseY4 : List Char → Option (ℕ × List Char)
  | a :: b :: c :: d :: rest =>
      if a.isDigit && b.isDigit && c.isDigit && d.isDigit then
        some (1000 * digitVal a + 100 * digitVal b + 10 * digitVal c +
          digitVal d, rest)
      else none
  | _ => none

/-- CPython `strptime` directive `%m`: the regex
`1[0-2]|0[1-9]|[1-9]`, alternatives tried left to right (the shorter
`[1-9]` alternative is reached when the two-character ones fail; in the
five formats of `_normalize_date` the directive is always followed by a
literal separator, which can never itself extend a two-character digit
match, so the committed choice below agrees with regex backtracking). -/
def parseMonth : List Char → Option (ℕ × List Char)
  | [] => none
  | c :: rest =>
      if c = '1' then
        match rest with
        | c2 :: rest2 =>
            if '0' ≤ c2 ∧ c2 ≤ '2' then some (10 + digitVal c2, rest2)
            else some (1, rest)
        | [] => some (1, [])
      else if c = '0' then
        match rest with
        | c2 :: rest2 =>
            if '1' ≤ c2 ∧ c2 ≤ '9' then some (digitVal c2, rest2) else none
        | [] => none
      else if '2' ≤ c ∧ c ≤ '9' then some (digitVal c, rest)
      else none

/-- CPython `strptime` directive `%d`: the regex
`3[01]|[12]\d|0[1-9]|[1-9]`, alternatives tried left to right (same
remark on backtracking as for the month directive). -/
def parseDay : List Char → Option (ℕ × List Char)
  | [] => none
  | c :: rest =>
      if c = '3' then
        match rest with
        | c2 :: rest2 =>
            if c2 = '0' ∨ c2 = '1' then some (30 + digitVal c2, rest2)
            else some (3, rest)
        | [] => some (3, [])
      else if c = '1' ∨ c = '2' then
        match rest with
        | c2 :: rest2 =>
            if c2.isDigit then some (10 * digitVal c + digitVal c2, rest2)
            else some (digitVal c, rest)
        | [] => some (digitVal c, [])
      else if c = '0' then
        match rest with
        | c2 :: rest2 =>
            if '1' ≤ c2 ∧ c2 ≤ '9' then some (digitVal c2, rest2) else none
        | [] => none
      else if '4' ≤ c ∧ c ≤ '9' then some (digitVal c, rest)
      else none

/-- One `datetime.strptime(date_str, fmt)` attempt for a three-directive
format `p1 sep p2 sep p3`: the regex must match literally and consume the
whole string (`strptime` raises unless `found.end() == len(data_string)`). -/
def parse3 (p1 p2 p3 : List Char → Option (ℕ × List Char)) (sep : Char)
    (cs : List Char) : Option (ℕ × ℕ × ℕ) :=
  match p1 cs with
  | none => none
  | some (a, r1) =>
      match r1 with
      | [] => none
      | c :: r2 =>
          if c = sep then
            match p2 r2 with
            | none => none
            | some (b, r3) =>
                match r3 with
                | [] => none
                | c2 :: r4 =>
                    if c2 = sep then
                      match p3 r4 with
                      | some (v, []) => some (a, b, v)
                      | _ => none
                    else none
          else none

/-- A calendar date as carried by a Python `datetime` (only the fields
`_normalize_date` uses). -/
structure SimpleDate where
  year : ℕ
  month : ℕ
  day : ℕ
  deriving DecidableEq

/-- Gregorian leap-year rule used by `datetime`. -/
def isLeapYear (y : ℕ) : Bool :=
  (y % 4 = 0 && y % 100 ≠ 0) || y % 400 = 0

/-- Days in a month, as validated by the `datetime` constructor. -/
def daysInMonth (y m : ℕ) : ℕ :=
  if m = 2 then (if isLeapYear y then 29 else 28)
  else if m = 4 ∨ m = 6 ∨ m = 9 ∨ m = 11 then 30
  else 31

/-- The `datetime(year, month, day)` construction performed by
`strptime`: `MINYEAR = 1`, `MAXYEAR = 9999`, month and day in range
(out-of-range values raise `ValueError`, making the format attempt
fail). -/
def mkValidDate (y m d : ℕ) : Option SimpleDate :=
  if 1 ≤ y ∧ y ≤ 9999 ∧ 1 ≤ m ∧ m ≤ 12 ∧ 1 ≤ d ∧ d ≤ daysInMonth y m then
    some ⟨y, m, d⟩
  else none

/-- The dates `datetime` can represent. -/
def ValidDate (dt : SimpleDate) : Prop :=
  1 ≤ dt.year ∧ dt.year ≤ 9999 ∧ 1 ≤ dt.month ∧ dt.month ≤ 12 ∧
    1 ≤ dt.day ∧ dt.day ≤ daysInMonth dt.year dt.month

instance (dt : SimpleDate) : Decidable (ValidDate dt) := by
  unfold ValidDate; exact inferInstance

/-- Model of `datetime.strptime(date_str, '%m/%d/%Y')`. -/
def tryParseMDYslash (cs : List Char) : Option SimpleDate :=
  match parse3 parseMonth parseDay parseY4 '/' cs with
  | some (m, d, y) => mkValidDate y m d
  | none => none

/-- Model of `datetime.strptime(date_str, '%d/%m/%Y')`. -/
def tryParseDMYslash (cs : List Char) : Option SimpleDate :=
  match parse3 parseDay parseMonth parseY4 '/' cs with
  | some (d, m, y) => mkValidDate y m d
  | none => none

/-- Model of `datetime.strptime(date_str, '%Y-%m-%d')`. -/
def tryParseYMDdash (cs : List Char) : Option SimpleDate :=
  match parse3 parseY4 parseMonth parseDay '-' cs with
  | some (y, m, d) => mkValidDate y m d
  | none => none

/-- Model of `datetime.strptime(date_str, '%m-%d-%Y')`. -/
def tryParseMDYdash (cs : List Char) : Option SimpleDate :=
  match parse3 parseMonth parseDay parseY4 '-' cs with
  | some (m, d, y) => mkValidDate y m d
  | none => none

/-- Model of `datetime.strptime(date_str, '%d-%m-%Y')`. -/
def tryParseDMYdash (cs : List Char) : Option SimpleDate :=
  match parse3 parseDay parseMonth parseY4 '-' cs with
  | some (d, m, y) => mkValidDate y m d
  | none => none

/-- Model of `date_obj.strftime('%Y-%m-%d')` as a character list: the year with
century (four digits, zero-padded per the documented strftime format
codes) and zero-padded two-digit month and day. -/
def formatYMDChars (y m d : ℕ) : List Char :=
  [Nat.digitChar (y / 1000 % 10), Nat.digitChar (y / 100 % 10),
   Nat.digitChar (y / 10 % 10), Nat.digitChar (y % 10), '-',
   Nat.digitChar (m / 10 % 10), Nat.digitChar (m % 10), '-',
   Nat.digitChar (d / 10 % 10), Nat.digitChar (d % 10)]

/-- Model of `date_obj.strftime('%Y-%m-%d')`. -/
def formatYMD (dt : SimpleDate) : String :=
  String.mk (formatYMDChars dt.year dt.month dt.day)

/-- Model of `_normalize_date` (receipt_fraud_detector.py lines 782-795): the five
formats are attempted in order; the first that parses wins and its date
is re-rendered as `%Y-%m-%d`; if none parses, the input is returned
unchanged. -/
def normalizeDate (s : String) : String :=
  match tryParseMDYslash s.data with
  | some dt => formatYMD dt
  | none =>
    match tryParseDMYslash s.data with
    | some dt => formatYMD dt
    | none =>
      match tryParseYMDdash s.data with
      | some dt => formatYMD dt
      | none =>
        match tryParseMDYdash s.data with
        | some dt => formatYMD dt
        | none =>
          match tryParseDMYdash s.data with
          | some dt => formatYMD dt
          | none => s

end Expensync

namespace Expensync

theorem digitChar_isDigit (a : ℕ) (h : a < 10) :
    (Nat.digitChar a).isDigit = true := by
  interval_cases a <;> decide

theorem digitVal_digitChar (a : ℕ) (h : a < 10) :
    digitVal (Nat.digitChar a) = a := by
  interval_cases a <;> decide

theorem digitChar_ne_slash (a : ℕ) (h : a < 10) : Nat.digitChar a ≠ '/' := by
  interval_cases a <;> decide

theorem parseY4_pad (y : ℕ) (hy : y ≤ 9999) (rest : List Char) :
    parseY4 (Nat.digitChar (y / 1000 % 10) :: Nat.digitChar (y / 100 % 10) ::
      Nat.digitChar (y / 10 % 10) :: Nat.digitChar (y % 10) :: rest) =
      some (y, rest) := by
  have h1 : y / 1000 % 10 < 10 := Nat.mod_lt _ (by norm_num)
  have h2 : y / 100 % 10 < 10 := Nat.mod_lt _ (by norm_num)
  have h3 : y / 10 % 10 < 10 := Nat.mod_lt _ (by norm_num)
  have h4 : y % 10 < 10 := Nat.mod_lt _ (by norm_num)
  simp only [parseY4, digitChar_isDigit _ h1, digitChar_isDigit _ h2,
    digitChar_isDigit _ h3, digitChar_isDigit _ h4, Bool.and_self,
    if_true, digitVal_digitChar _ h1, digitVal_digitChar _ h2,
    digitVal_digitChar _ h3, digitVal_digitChar _ h4, Option.some.injEq,
    Prod.mk.injEq]
  exact ⟨by omega, trivial⟩

theorem parseMonth_pad (m : ℕ) (hm1 : 1 ≤ m) (hm2 : m ≤ 12)
    (rest : List Char) :
    parseMonth (Nat.digitChar (m / 10 % 10) :: Nat.digitChar (m % 10) ::
      rest) = some (m, rest) := by
  interval_cases m <;> rfl

theorem parseDay_pad (d : ℕ) (hd1 : 1 ≤ d) (hd2 : d ≤ 31)
    (rest : List Char) :
    parseDay (Nat.digitChar (d / 10 % 10) :: Nat.digitChar (d % 10) ::
      rest) = some (d, rest) := by
  interval_cases d <;> rfl

end Expensync

namespace Expensync

theorem tryParseYMDdash_format (y m d : ℕ) (hy1 : 1 ≤ y) (hy2 : y ≤ 9999)
    (hm1 : 1 ≤ m) (hm2 : m ≤ 12) (hd1 : 1 ≤ d)
    (hd2 : d ≤ daysInMonth y m) :
    tryParseYMDdash (formatYMDChars y m d) = some ⟨y, m, d⟩ := by
  have hd31 : d ≤ 31 := by
    have : daysInMonth y m ≤ 31 := by
      unfold daysInMonth
      split_ifs <;> norm_num
    omega
  unfold tryParseYMDdash formatYMDChars parse3
  rw [parseY4_pad y hy2]
  dsimp only
  rw [if_pos rfl, parseMonth_pad m hm1 hm2]
  dsimp only
  rw [if_pos rfl, parseDay_pad d hd1 hd31]
  dsimp only
  unfold mkValidDate
  rw [if_pos ⟨hy1, hy2, hm1, hm2, hd1, hd2⟩]

theorem parseMonth_rest_shape (c1 c2 : Char) (rest : List Char) (v : ℕ)
    (r : List Char) (h : parseMonth (c1 :: c2 :: rest) = some (v, r)) :
    r = c2 :: rest ∨ r = rest := by
  unfold parseMonth at h
  dsimp only at h
  split_ifs at h <;> simp_all

theorem parseDay_rest_shape (c1 c2 : Char) (rest : List Char) (v : ℕ)
    (r : List Char) (h : parseDay (c1 :: c2 :: rest) = some (v, r)) :
    r = c2 :: rest ∨ r = rest := by
  unfold parseDay at h
  dsimp only at h
  split_ifs at h <;> simp_all

theorem parse3_sep_fail (p1 p2 p3 : List Char → Option (ℕ × List Char))
    (c1 c2 c3 : Char) (tail : List Char)
    (hshape : ∀ v r, p1 (c1 :: c2 :: c3 :: tail) = some (v, r) →
      r = c2 :: c3 :: tail ∨ r = c3 :: tail)
    (h2 : c2 ≠ '/') (h3 : c3 ≠ '/') :
    parse3 p1 p2 p3 '/' (c1 :: c2 :: c3 :: tail) = none := by
  unfold parse3
  cases hp : p1 (c1 :: c2 :: c3 :: tail) with
  | none => rfl
  | some vr =>
      obtain ⟨v, r⟩ := vr
      rcases hshape v r hp with h | h <;> subst h <;> dsimp only
      · rw [if_neg h2]
      · rw [if_neg h3]

theorem tryParseMDYslash_format (y m d : ℕ) :
    tryParseMDYslash (formatYMDChars y m d) = none := by
  have h2 : y / 100 % 10 < 10 := Nat.mod_lt _ (by norm_num)
  have h3 : y / 10 % 10 < 10 := Nat.mod_lt _ (by norm_num)
  unfold tryParseMDYslash formatYMDChars
  rw [parse3_sep_fail _ _ _ _ _ _ _
    (fun v r h => parseMonth_rest_shape _ _ _ v r h)
    (digitChar_ne_slash _ h2) (digitChar_ne_slash _ h3)]

theorem tryParseDMYslash_format (y m d : ℕ) :
    tryParseDMYslash (formatYMDChars y m d) = none := by
  have h2 : y / 100 % 10 < 10 := Nat.mod_lt _ (by norm_num)
  have h3 : y / 10 % 10 < 10 := Nat.mod_lt _ (by norm_num)
  unfold tryParseDMYslash formatYMDChars
  rw [parse3_sep_fail _ _ _ _ _ _ _
    (fun v r h => parseDay_rest_shape _ _ _ v r h)
    (digitChar_ne_slash _ h2) (digitChar_ne_slash _ h3)]

end Expensync

namespace Expensync

theorem mkValidDate_valid (y m d : ℕ) (dt : SimpleDate)
    (h : mkValidDate y m d = some dt) : ValidDate dt := by
  unfold mkValidDate at h
  split_ifs at h with hc
  cases h
  exact hc

theorem tryParseMDYslash_valid (cs : List Char) (dt : SimpleDate)
    (h : tryParseMDYslash cs = some dt) : ValidDate dt := by
  unfold tryParseMDYslash at h
  rcases hp : parse3 parseMonth parseDay parseY4 '/' cs with _ | ⟨m, d, y⟩ <;>
    rw [hp] at h
  · cases h
  · exact mkValidDate_valid _ _ _ _ h

theorem tryParseDMYslash_valid (cs : List Char) (dt : SimpleDate)
    (h : tryParseDMYslash cs = some dt) : ValidDate dt := by
  unfold tryParseDMYslash at h
  rcases hp : parse3 parseDay parseMonth parseY4 '/' cs with _ | ⟨d, m, y⟩ <;>
    rw [hp] at h
  · cases h
  · exact mkValidDate_valid _ _ _ _ h

theorem tryParseYMDdash_valid (cs : List Char) (dt : SimpleDate)
    (h : tryParseYMDdash cs = some dt) : ValidDate dt := by
  unfold tryParseYMDdash at h
  rcases hp : parse3 parseY4 parseMonth parseDay '-' cs with _ | ⟨y, m, d⟩ <;>
    rw [hp] at h
  · cases h
  · exact mkValidDate_valid _ _ _ _ h

theorem tryParseMDYdash_valid (cs : List Char) (dt : SimpleDate)
    (h : tryParseMDYdash cs = some dt) : ValidDate dt := by
  unfold tryParseMDYdash at h
  rcases hp : parse3 parseMonth parseDay parseY4 '-' cs with _ | ⟨m, d, y⟩ <;>
    rw [hp] at h
  · cases h
  · exact mkValidDate_valid _ _ _ _ h

theorem tryParseDMYdash_valid (cs : List Char) (dt : SimpleDate)
    (h : tryParseDMYdash cs = some dt) : ValidDate dt := by
  unfold tryParseDMYdash at h
  rcases hp : parse3 parseDay parseMonth parseY4 '-' cs with _ | ⟨d, m, y⟩ <;>
    rw [hp] at h
  · cases h
  · exact mkValidDate_valid _ _ _ _ h

theorem normalizeDate_format_fixed (dt : SimpleDate) (h : ValidDate dt) :
    normalizeDate (formatYMD dt) = formatYMD dt := by
  obtain ⟨y, m, d⟩ := dt
  obtain ⟨hy1, hy2, hm1, hm2, hd1, hd2⟩ := h
  unfold normalizeDate
  have hdata : (formatYMD ⟨y, m, d⟩).data = formatYMDChars y m d := rfl
  rw [hdata, tryParseMDYslash_format, tryParseDMYslash_format,
    tryParseYMDdash_format y m d hy1 hy2 hm1 hm2 hd1 hd2]

end Expensync

namespace Expensync

theorem normalizeDate_idem (s : String) :
    normalizeDate (normalizeDate s) = normalizeDate s := by
  rcases h1 : tryParseMDYslash s.data with _ | dt
  · rcases h2 : tryParseDMYslash s.data with _ | dt
    · rcases h3 : tryParseYMDdash s.data with _ | dt
      · rcases h4 : tryParseMDYdash s.data with _ | dt
        · rcases h5 : tryParseDMYdash s.data with _ | dt
          · have hs : normalizeDate s = s := by
              unfold normalizeDate
              rw [h1, h2, h3, h4, h5]
            rw [hs]
            exact hs
          · have hs : normalizeDate s = formatYMD dt := by
              unfold normalizeDate
              rw [h1, h2, h3, h4, h5]
            rw [hs]
            exact normalizeDate_format_fixed dt (tryParseDMYdash_valid _ _ h5)
        · have hs : normalizeDate s = formatYMD dt := by
            unfold normalizeDate
            rw [h1, h2, h3, h4]
          rw [hs]
          exact normalizeDate_format_fixed dt (tryParseMDYdash_valid _ _ h4)
      · have hs : normalizeDate s = formatYMD dt := by
          unfold normalizeDate
          rw [h1, h2, h3]
        rw [hs]
        exact normalizeDate_format_fixed dt (tryParseYMDdash_valid _ _ h3)
    · have hs : normalizeDate s = formatYMD dt := by
        unfold normalizeDate
        rw [h1, h2]
      rw [hs]
      exact normalizeDate_format_fixed dt (tryParseDMYslash_valid _ _ h2)
  · have hs : normalizeDate s = formatYMD dt := by
      unfold normalizeDate
      rw [h1]
    rw [hs]
    exact normalizeDate_format_fixed dt (tryParseMDYslash_valid _ _ h1)

/-- Claim C8: Date normalization is idempotent: every date string already
in zero-padded `YYYY-MM-DD` form (the `strftime` rendering of a
representable date, hence parseable by the `%Y-%m-%d` pattern) is
returned unchanged by `_normalize_date`, and normalizing twice equals
normalizing once for every input string. -/
theorem normalizeDate_idempotency :
    (∀ dt : SimpleDate, ValidDate dt →
      normalizeDate (formatYMD dt) = formatYMD dt) ∧
    (∀ s : String, normalizeDate (normalizeDate s) = normalizeDate s) :=
  ⟨normalizeDate_format_fixed, normalizeDate_idem⟩

/-- Witness for C8: the already-normalized string "2024-03-01" is a fixed
point of `_normalize_date`. -/
theorem normalizeDate_idempotency_witness :
    ValidDate ⟨2024, 3, 1⟩ ∧
      normalizeDate (formatYMD ⟨2024, 3, 1⟩) = formatYMD ⟨2024, 3, 1⟩ :=
  ⟨by decide, normalizeDate_idempotency.1 ⟨2024, 3, 1⟩ (by decide)⟩

end Expensync

namespace Expensync

/-- Model of `_normalize_text` (lines 797-804): lowercase, then strip every
character outside `[a-z0-9]`. -/
def normalizeText (s : String) : String :=
  String.mk (s.toLower.data.filter
    (fun c => (('a' ≤ c && c ≤ 'z') || ('0' ≤ c && c ≤ '9'))))

/-- OCR structured field set: the fields produced by
`_extract_structured_data` / the model-based extractor and compared by
`_validate_ocr_results` and `_find_discrepancies`. Monetary fields are
numeric (the comparisons pass them through `float(...)`). -/
structure OcrStructuredData where
  date : Option String := none
  total_amount : Option ℚ := none
  tax_amount : Option ℚ := none
  vendor_name : Option String := none
  items : List (String × ℚ) := []

/-- One entry of the `discrepancies` list built by `_find_discrepancies`:
the field name plus the two conflicting values. -/
structure Discrepancy where
  field : String
  tesseract_value : JVal
  llm_value : JVal

/-- Model of `_find_discrepancies` (lines 735-780): each of the four fields is
compared only when both sides are truthy (non-`None`, non-empty,
non-zero); dates are compared after `_normalize_date`, vendor names
after `_normalize_text`, monetary fields with a 0.01 epsilon. -/
def findDiscrepancies (t l : OcrStructuredData) : List Discrepancy :=
  (match t.date, l.date with
   | some td, some ld =>
       if td ≠ "" ∧ ld ≠ "" ∧ normalizeDate td ≠ normalizeDate ld then
         [⟨"date", .str td, .str ld⟩]
       else []
   | _, _ => []) ++
  (match t.total_amount, l.total_amount with
   | some ta, some la =>
       if ta ≠ 0 ∧ la ≠ 0 ∧ |ta - la| ≥ 1/100 then
         [⟨"total_amount", .num ta, .num la⟩]
       else []
   | _, _ => []) ++
  (match t.vendor_name, l.vendor_name with
   | some tv, some lv =>
       if tv ≠ "" ∧ lv ≠ "" ∧ normalizeText tv ≠ normalizeText lv then
         [⟨"vendor_name", .str tv, .str lv⟩]
       else []
   | _, _ => []) ++
  (match t.tax_amount, l.tax_amount with
   | some ta, some la =>
       if ta ≠ 0 ∧ la ≠ 0 ∧ |ta - la| ≥ 1/100 then
         [⟨"tax_amount", .num ta, .num la⟩]
       else []
   | _, _ => [])

/-- The `validation` dict built by `_validate_ocr_results`: four match
flags plus the overall score. -/
structure OcrValidation where
  date_match : Bool
  amount_match : Bool
  vendor_match : Bool
  tax_match : Bool
  overall_match_score : ℚ

/-- Model of `_validate_ocr_results` (lines 698-733). Each flag is set only when
both sides of its field are truthy. `matches = sum(validation.values())`
adds the four booleans to the initial `overall_match_score` of `0.0`,
and the score divides by `len(validation)`, which is 5: the four flag
keys plus the `overall_match_score` key itself. -/
def validateOcrResults (t l : OcrStructuredData) : OcrValidation :=
  let dm : Bool := match t.date, l.date with
    | some a, some b =>
        if a ≠ "" ∧ b ≠ "" then decide (normalizeDate a = normalizeDate b)
        else false
    | _, _ => false
  let am : Bool := match t.total_amount, l.total_amount with
    | some a, some b =>
        if a ≠ 0 ∧ b ≠ 0 then decide (|a - b| < 1/100) else false
    | _, _ => false
  let vm : Bool := match t.vendor_name, l.vendor_name with
    | some a, some b =>
        if a ≠ "" ∧ b ≠ "" then decide (normalizeText a = normalizeText b)
        else false
    | _, _ => false
  let tm : Bool := match t.tax_amount, l.tax_amount with
    | some a, some b =>
        if a ≠ 0 ∧ b ≠ 0 then decide (|a - b| < 1/100) else false
    | _, _ => false
  { date_match := dm, amount_match := am, vendor_match := vm,
    tax_match := tm,
    overall_match_score :=
      ((boolScore dm + boolScore am + boolScore vm + boolScore tm : ℕ) : ℚ)
        / 5 }

/-- The `best_result` entry of the Tesseract path. -/
structure OcrBestResult where
  text : String := ""
  confidence : ℚ := 0

/-- The `_tesseract_ocr_analysis` result dict as consumed by
`_combine_ocr_results` (absent keys read through `.get` defaults). -/
structure TesseractResults where
  best_result : Option OcrBestResult := none
  structured_data : OcrStructuredData := {}

/-- The `_llm_ocr_analysis` result dict as consumed by
`_combine_ocr_results`. -/
structure LlmOcrResults where
  extracted_text : String := ""
  structured_data : OcrStructuredData := {}
  confidence_score : ℚ := 0

/-- The `combined` dict returned by `_combine_ocr_results`. -/
structure CombinedOcr where
  extracted_text : String
  structured_data : OcrStructuredData
  confidence_score : ℚ
  validation_results : OcrValidation
  discrepancies : List Discrepancy

/-- The confidence discount of line 690:
`combined['confidence_score'] *= (1 - len(discrepancies) * 0.1)` —
no floor clamp is applied. -/
def discrepancyDiscount (c : ℚ) (k : ℕ) : ℚ := c * (1 - (k : ℚ) * (1/10))

/-- Model of `_combine_ocr_results` (lines 647-696): pick the path with the
strictly higher confidence (ties go to Tesseract), attach the validation
results, and when discrepancies were found discount the selected
confidence by `1 - 0.1 * count`. -/
def combineOcrResults (t : TesseractResults) (l : LlmOcrResults) :
    CombinedOcr :=
  let tesseractText := (t.best_result.map (fun b => b.text)).getD ""
  let tesseractConfidence :=
    (t.best_result.map (fun b => b.confidence)).getD 0
  let validation := validateOcrResults t.structured_data l.structured_data
  let base : CombinedOcr :=
    if l.confidence_score > tesseractConfidence then
      { extracted_text := l.extracted_text,
        structured_data := l.structured_data,
        confidence_score := l.confidence_score,
        validation_results := validation, discrepancies := [] }
    else
      { extracted_text := tesseractText,
        structured_data := t.structured_data,
        confidence_score := tesseractConfidence,
        validation_results := validation, discrepancies := [] }
  let ds := findDiscrepancies t.structured_data l.structured_data
  if ds.isEmpty then base
  else
    { base with
      discrepancies := ds,
      confidence_score :=
        discrepancyDiscount base.confidence_score ds.length }

end Expensync

namespace Expensync

theorem boolScore_le_one (b : Bool) : boolScore b ≤ 1 := by
  cases b <;> simp [boolScore]

/-- Claim C5: In `_combine_ocr_results` the returned confidence equals the
selected path's confidence times `1 - 0.1 * k` where `k` is the number
of field-level discrepancies found, with no floor clamp at 0; hence the
discount expression applied at any `k ≥ 10` with positive confidence
yields a confidence that is zero or negative. -/
theorem combineOcr_confidence_discount :
    (∀ (t : TesseractResults) (l : LlmOcrResults),
      (combineOcrResults t l).confidence_score =
        discrepancyDiscount
          (if l.confidence_score >
              (t.best_result.map (fun b => b.confidence)).getD 0 then
            l.confidence_score
          else (t.best_result.map (fun b => b.confidence)).getD 0)
          (findDiscrepancies t.structured_data l.structured_data).length) ∧
    (∀ (c : ℚ) (k : ℕ), 10 ≤ k → 0 < c → discrepancyDiscount c k ≤ 0) := by
  constructor
  · intro t l
    unfold combineOcrResults
    dsimp only
    rcases hds : findDiscrepancies t.structured_data l.structured_data with
      _ | ⟨d, ds⟩
    · simp only [List.isEmpty_nil, if_true, List.length_nil]
      unfold discrepancyDiscount
      split_ifs <;> push_cast <;> ring
    · simp only [List.isEmpty_cons, Bool.false_eq_true, if_false]
      split_ifs <;> rfl
  · intro c k hk hc
    unfold discrepancyDiscount
    have hkq : (10 : ℚ) ≤ (k : ℚ) := by exact_mod_cast hk
    nlinarith

/-- Witness for C5: the discount expression at 10 discrepancies and
confidence 1/2 is nonpositive. -/
theorem combineOcr_confidence_discount_witness :
    discrepancyDiscount (1/2) 10 ≤ 0 :=
  combineOcr_confidence_discount.2 (1/2) 10 (by norm_num) (by norm_num)

/-- Claim C10: The `overall_match_score` of `_validate_ocr_results` equals
the number of true match flags divided by 5 (the length of the
validation dict, which counts the `overall_match_score` key alongside
the four flags), so it is at most 0.8 and equals exactly 0.8 — never
1.0 — when all four compared fields match. -/
theorem validateOcr_match_score :
    (∀ t l : OcrStructuredData,
      (validateOcrResults t l).overall_match_score =
        ((boolScore (validateOcrResults t l).date_match +
          boolScore (validateOcrResults t l).amount_match +
          boolScore (validateOcrResults t l).vendor_match +
          boolScore (validateOcrResults t l).tax_match : ℕ) : ℚ) / 5) ∧
    (∀ t l : OcrStructuredData,
      (validateOcrResults t l).overall_match_score ≤ 4/5) ∧
    (∀ t l : OcrStructuredData,
      (validateOcrResults t l).date_match = true →
      (validateOcrResults t l).amount_match = true →
      (validateOcrResults t l).vendor_match = true →
      (validateOcrResults t l).tax_match = true →
      (validateOcrResults t l).overall_match_score = 4/5) := by
  refine ⟨fun t l => rfl, fun t l => ?_, fun t l h1 h2 h3 h4 => ?_⟩
  · have hsum : (boolScore (validateOcrResults t l).date_match +
        boolScore (validateOcrResults t l).amount_match +
        boolScore (validateOcrResults t l).vendor_match +
        boolScore (validateOcrResults t l).tax_match : ℕ) ≤ 4 := by
      have b1 := boolScore_le_one (validateOcrResults t l).date_match
      have b2 := boolScore_le_one (validateOcrResults t l).amount_match
      have b3 := boolScore_le_one (validateOcrResults t l).vendor_match
      have b4 := boolScore_le_one (validateOcrResults t l).tax_match
      omega
    have hq : ((boolScore (validateOcrResults t l).date_match +
        boolScore (validateOcrResults t l).amount_match +
        boolScore (validateOcrResults t l).vendor_match +
        boolScore (validateOcrResults t l).tax_match : ℕ) : ℚ) ≤ 4 := by
      exact_mod_cast hsum
    calc (validateOcrResults t l).overall_match_score
        = ((boolScore (validateOcrResults t l).date_match +
            boolScore (validateOcrResults t l).amount_match +
            boolScore (validateOcrResults t l).vendor_match +
            boolScore (validateOcrResults t l).tax_match : ℕ) : ℚ) / 5 :=
          rfl
      _ ≤ 4/5 := by linarith
  · calc (validateOcrResults t l).overall_match_score
        = ((boolScore (validateOcrResults t l).date_match +
            boolScore (validateOcrResults t l).amount_match +
            boolScore (validateOcrResults t l).vendor_match +
            boolScore (validateOcrResults t l).tax_match : ℕ) : ℚ) / 5 :=
          rfl
      _ = 4/5 := by rw [h1, h2, h3, h4]; norm_num [boolScore]

/-- A concrete structured field set used to witness C10. -/
def sampleOcrData : OcrStructuredData :=
  { date := some "2024-03-01", total_amount := some 5, tax_amount := some 1,
    vendor_name := some "Acme" }

/-- Witness for C10: with identical structured data on both sides all
four flags are true and the score is exactly 4/5. -/
theorem validateOcr_match_score_witness :
    (validateOcrResults sampleOcrData sampleOcrData).overall_match_score
      = 4/5 := by
  have hd : (validateOcrResults sampleOcrData sampleOcrData).date_match
      = true := by
    simp [validateOcrResults, sampleOcrData]
  have ha : (validateOcrResults sampleOcrData sampleOcrData).amount_match
      = true := by
    simp [validateOcrResults, sampleOcrData]
  have hv : (validateOcrResults sampleOcrData sampleOcrData).vendor_match
      = true := by
    simp [validateOcrResults, sampleOcrData]
  have ht : (validateOcrResults sampleOcrData sampleOcrData).tax_match
      = true := by
    simp [validateOcrResults, sampleOcrData]
  exact validateOcr_match_score.2.2 sampleOcrData sampleOcrData hd ha hv ht

end Expensync

namespace Expensync

/-- Argument mapping of a reasoning-service tool call (`tool_args`): the
optional fields the four local tools read through `.get`. -/
structure ToolArgs where
  vendor_name : Option String := none
  service_type : Option String := none
  location : Option String := none
  date : Option String := none
  address : Option String := none
  time : Option String := none
  coordinates : Option (ℚ × ℚ) := none

/-- One tool call requested by the reasoning service in its response. -/
structure ToolCall where
  name : String
  args : ToolArgs

/-- Model of `_search_vendor_info` (lines 1503-1517): static example payload. -/
def searchVendorInfo (_vendor : Option String) : JVal :=
  .dict [("vendor_exists", .bool true), ("business_type", .str "Restaurant"),
         ("rating", .num (9/2)), ("reviews_count", .num 100),
         ("verified", .bool true)]

/-- Model of `_check_pricing` (lines 1519-1537): static example payload; location
and date are optional and unused; `last_updated` carries
`datetime.now().isoformat()`, supplied by the caller as `now`. -/
def checkPricing (now : String) (_vendor _service : Option String)
    (_location _date : Option String) : JVal :=
  .dict [("price_range",
          .dict [("min", .num 50), ("max", .num 100), ("average", .num 75)]),
         ("currency", .str "USD"), ("last_updated", .str now),
         ("source", .str "Online API")]

/-- Model of `_verify_location` (lines 1539-1553): `address_match` is
`True if address else None` and `coordinates_match` is
`True if coordinates else None`. -/
def verifyLocation (_vendor : Option String) (address : Option String)
    (coordinates : Option (ℚ × ℚ)) : JVal :=
  .dict [("location_verified", .bool true),
         ("address_match", if truthyStr address then .bool true else .null),
         ("coordinates_match",
          if coordinates.isSome then .bool true else .null),
         ("distance", .num (1/10))]

/-- Model of `_check_operating_hours` (lines 1555-1571): static example payload. -/
def checkOperatingHours (_vendor _date _time : Option String) : JVal :=
  .dict [("was_open", .bool true),
         ("operating_hours",
          .dict [("open", .str "09:00"), ("close", .str "22:00")]),
         ("special_hours", .bool false), ("holiday", .bool false)]

/-- The dispatch on `tool_name` at lines 1356-1381: each recognized tool
is executed locally and its result stored under the tool-specific key;
unrecognized names contribute nothing. -/
def execToolCall (now : String) (vr : List (String × JVal))
    (tc : ToolCall) : List (String × JVal) :=
  if tc.name = "search_vendor_info" then
    dictSet vr "vendor_info" (searchVendorInfo tc.args.vendor_name)
  else if tc.name = "check_pricing" then
    dictSet vr "pricing_info"
      (checkPricing now tc.args.vendor_name tc.args.service_type
        tc.args.location tc.args.date)
  else if tc.name = "verify_location" then
    dictSet vr "location_info"
      (verifyLocation tc.args.vendor_name tc.args.address
        tc.args.coordinates)
  else if tc.name = "check_operating_hours" then
    dictSet vr "operating_hours"
      (checkOperatingHours tc.args.vendor_name tc.args.date tc.args.time)
  else vr

/-- One entry of the `tool_calls` log (lines 1383-1387): the result
field re-reads the mapping under the key `f'{tool_name}_info'`, which
matches the stored key only for `search_vendor_info`, so for the other
tools it yields the `{}` default. -/
structure ToolCallLog where
  tool_name : String
  arguments : ToolArgs
  result : JVal

/-- Build one `tool_calls` log entry (lines 1383-1387). -/
def logToolCall (vr : List (String × JVal)) (tc : ToolCall) : ToolCallLog :=
  { tool_name := tc.name, arguments := tc.args,
    result := (dictGet vr (tc.name ++ "_info")).getD (.dict []) }

/-- One iteration of the tool-call loop of
`_make_online_verification_call`: execute the requested call on the
accumulated mapping, then append the log entry. -/
def toolCallStep (now : String)
    (acc : List (String × JVal) × List ToolCallLog) (tc : ToolCall) :
    List (String × JVal) × List ToolCallLog :=
  let vr := execToolCall now acc.1 tc
  (vr, acc.2 ++ [logToolCall vr tc])

/-- Truthiness of `d.get(k)` on a dict section. -/
def jTruthyKey (d : List (String × JVal)) (k : String) : Bool :=
  pyTruthy ((dictGet d k).getD .null)

/-- One section of `_calculate_verification_confidence`: when `key` is
present its value must support `.get`, i.e. be a dict — any other shape
raises `AttributeError`, which the handler converts to a `0.0`
confidence (modelled by `none`); an absent section contributes no
factors. -/
def sectionFactors (vr : List (String × JVal)) (key : String)
    (gates : List (String × JVal) → List ℚ) : Option (List ℚ) :=
  match dictGet vr key with
  | none => some []
  | some (.dict inner) => some (gates inner)
  | some _ => none

/-- Model of `_calculate_verification_confidence` (lines 1573-1615): the average
of the gated fixed increments (vendor exists 1.0 / verified 0.8,
pricing present 0.9 / fresh 0.7, location verified 1.0 / address match
0.8, was open 0.9 / not special hours 0.7), `0.0` when none
contributed or when a present section raised. -/
def calculateVerificationConfidence (vr : List (String × JVal)) : ℚ :=
  let factors : Option (List ℚ) := do
    let f1 ← sectionFactors vr "vendor_info" (fun d =>
      (if jTruthyKey d "vendor_exists" then [1] else []) ++
      (if jTruthyKey d "verified" then [4/5] else []))
    let f2 ← sectionFactors vr "pricing_info" (fun d =>
      (if jTruthyKey d "price_range" then [9/10] else []) ++
      (if jTruthyKey d "last_updated" then [7/10] else []))
    let f3 ← sectionFactors vr "location_info" (fun d =>
      (if jTruthyKey d "location_verified" then [1] else []) ++
      (if jTruthyKey d "address_match" then [4/5] else []))
    let f4 ← sectionFactors vr "operating_hours" (fun d =>
      (if jTruthyKey d "was_open" then [9/10] else []) ++
      (if !jTruthyKey d "special_hours" then [7/10] else []))
    pure (f1 ++ f2 ++ f3 ++ f4)
  match factors with
  | none => 0
  | some [] => 0
  | some fs => fs.sum / fs.length

/-- The `results` dict returned by `_make_online_verification_call`. -/
structure VerificationCallResult where
  verification_results : List (String × JVal)
  tool_calls : List ToolCallLog
  confidence_score : ℚ

/-- Model of `_make_online_verification_call` (lines 1313-1396): iterate over the
tool calls the reasoning service requested, folding each executed
result into `verification_results` and logging it, then score the
confidence. The service response is the `toolCalls` oracle; the prompt
only shapes the outgoing request. -/
def makeOnlineVerificationCall (now : String) (toolCalls : List ToolCall)
    (_prompt : String) : VerificationCallResult :=
  let res := toolCalls.foldl (toolCallStep now) ([], [])
  { verification_results := res.1, tool_calls := res.2,
    confidence_score := calculateVerificationConfidence res.1 }

/-- Model of `_get_category_specific_prompt` (lines 321-400): fixed mapping for
travel, hotel and food; any other category yields `None`. Only the
opening line of each prompt literal is reproduced — downstream
behaviour depends only on whether a prompt exists. -/
def getCategorySpecificPrompt (category : String) : Option String :=
  if category = "travel" then
    some "You are an AI specialized in verifying travel expenses."
  else if category = "hotel" then
    some "You are an AI specialized in verifying hotel expenses."
  else if category = "food" then
    some "You are an AI specialized in verifying food and dining expenses."
  else none

end Expensync

namespace Expensync

theorem dictGet_dictSet_eq (d : List (String × JVal)) (k : String)
    (v : JVal) : dictGet (dictSet d k v) k = some v := by
  induction d with
  | nil => simp [dictSet, dictGet]
  | cons kv rest ih =>
      obtain ⟨k0, v0⟩ := kv
      by_cases hk : k0 = k
      · simp [dictSet, dictGet, hk]
      · simp [dictSet, dictGet, hk, ih]

theorem dictGet_dictSet_ne (d : List (String × JVal)) (k' k : String)
    (v : JVal) (h : k' ≠ k) : dictGet (dictSet d k' v) k = dictGet d k := by
  induction d with
  | nil => simp [dictSet, dictGet, h]
  | cons kv rest ih =>
      obtain ⟨k0, v0⟩ := kv
      by_cases hk : k0 = k'
      · subst hk
        simp [dictSet, dictGet, h]
      · simp [dictSet, dictGet, hk, ih]

theorem execToolCall_preserves_pricing (now : String)
    (vr : List (String × JVal)) (tc : ToolCall)
    (hne : tc.name ≠ "check_pricing") :
    dictGet (execToolCall now vr tc) "pricing_info" =
      dictGet vr "pricing_info" := by
  unfold execToolCall
  by_cases h1 : tc.name = "search_vendor_info"
  · rw [if_pos h1]
    exact dictGet_dictSet_ne _ _ _ _ (by decide)
  · rw [if_neg h1, if_neg hne]
    by_cases h3 : tc.name = "verify_location"
    · rw [if_pos h3]
      exact dictGet_dictSet_ne _ _ _ _ (by decide)
    · rw [if_neg h3]
      by_cases h4 : tc.name = "check_operating_hours"
      · rw [if_pos h4]
        exact dictGet_dictSet_ne _ _ _ _ (by decide)
      · rw [if_neg h4]

theorem toolCallFold_preserves_pricing (now : String)
    (post : List ToolCall)
    (acc : List (String × JVal) × List ToolCallLog)
    (hpost : ∀ tc ∈ post, tc.name ≠ "check_pricing") :
    dictGet (post.foldl (toolCallStep now) acc).1 "pricing_info" =
      dictGet acc.1 "pricing_info" := by
  induction post generalizing acc with
  | nil => rfl
  | cons tc rest ih =>
      rw [List.foldl_cons,
        ih _ (fun t ht => hpost t (List.mem_cons_of_mem _ ht))]
      exact execToolCall_preserves_pricing now acc.1 tc
        (hpost tc (List.mem_cons_self _ _))

/-- Claim C9: For a travel expense a category prompt exists (so the
verification call is issued), and when the reasoning response contains
a `check_pricing` tool call carrying only vendor name and service type
(no location, no date, and no later `check_pricing` call overwriting
it), `_make_online_verification_call` still executes the pricing check
and records its result under the key `pricing_info` of the returned
`verification_results` mapping. -/
theorem checkPricing_recorded (now prompt : String)
    (pre post : List ToolCall) (args : ToolArgs)
    (hloc : args.location = none) (hdate : args.date = none)
    (hpost : ∀ tc ∈ post, tc.name ≠ "check_pricing") :
    (getCategorySpecificPrompt "travel").isSome = true ∧
    dictGet (makeOnlineVerificationCall now
        (pre ++ ⟨"check_pricing", args⟩ :: post) prompt).verification_results
        "pricing_info" =
      some (checkPricing now args.vendor_name args.service_type none
        none) := by
  refine ⟨rfl, ?_⟩
  unfold makeOnlineVerificationCall
  dsimp only
  rw [List.foldl_append, List.foldl_cons,
    toolCallFold_preserves_pricing now post _ hpost]
  have hexec : (toolCallStep now
      ((pre.foldl (toolCallStep now) ([], []))) ⟨"check_pricing", args⟩).1 =
      dictSet (pre.foldl (toolCallStep now) ([], [])).1 "pricing_info"
        (checkPricing now args.vendor_name args.service_type args.location
          args.date) := rfl
  rw [hexec, hloc, hdate, dictGet_dictSet_eq]

/-- Witness for C9: a response consisting of exactly the scenario's
`check_pricing(vendor_name, service_type)` call records `pricing_info`. -/
theorem checkPricing_recorded_witness :
    (getCategorySpecificPrompt "travel").isSome = true ∧
    dictGet (makeOnlineVerificationCall "2024-01-01T00:00:00"
        ([] ++ ⟨"check_pricing",
          { vendor_name := some "CityCab",
            service_type := some "ride" }⟩ :: []) "p").verification_results
        "pricing_info" =
      some (checkPricing "2024-01-01T00:00:00" (some "CityCab")
        (some "ride") none none) :=
  checkPricing_recorded "2024-01-01T00:00:00" "p" [] []
    { vendor_name := some "CityCab", service_type := some "ride" }
    rfl rfl (fun tc ht => absurd ht (List.not_mem_nil tc))

end Expensync

namespace Expensync

/-- The dict an analyzer returns, as consumed by the merge loop of
`analyze_receipt` (lines 91-102): each key is optional in the source
and an absent key contributes nothing, which coincides with the empty
default. -/
structure AnalyzerOutput where
  risk_factors : List String := []
  verification_results : List (String × JVal) := []
  image_analysis_results : List (String × JVal) := []
  online_verification_results : List (String × JVal) := []

/-- Merging one completed parallel analyzer result into the detector
state (lines 94-102): risk factors are appended, the three mappings are
dict-updated with later completions overwriting earlier ones. -/
def applyAnalyzerOutput (st : DetectorState) (out : AnalyzerOutput) :
    DetectorState :=
  { st with
    risk_factors := st.risk_factors ++ out.risk_factors,
    verification_results :=
      dictUpdate st.verification_results out.verification_results,
    image_analysis_results :=
      dictUpdate st.image_analysis_results out.image_analysis_results,
    online_verification_results :=
      dictUpdate st.online_verification_results
        out.online_verification_results }

/-- The per-future `try/except` of lines 92-104: a raising analyzer is
logged and contributes nothing to the state. -/
def applyOutcome (st : DetectorState) (r : Except String AnalyzerOutput) :
    DetectorState :=
  match r with
  | .ok out => applyAnalyzerOutput st out
  | .error _ => st

/-- Merging the category-verification result (lines 107-111): only risk
factors and verification results are consumed there. -/
def applyCategoryOutput (st : DetectorState) (out : AnalyzerOutput) :
    DetectorState :=
  { st with
    risk_factors := st.risk_factors ++ out.risk_factors,
    verification_results :=
      dictUpdate st.verification_results out.verification_results }

/-- An expense record as read back from the `expenses` table (the
fields the fraud pipeline touches). -/
structure ExpenseData where
  user_id : Option String := none
  category : Option String := none
  vendor_name : Option String := none
  amount : Option ℚ := none
  transaction_date : Option String := none

/-- External collaborators of one `analyze_receipt` run: the expense
store, the four parallel analyzers (each a network-bound call modelled
as a possibly-raising oracle), the reasoning-service tool-call response
used by category verification, the clock, and the outcome of the
`receipt_fraud_checks` insert (`none` when persistence fails or the
store is unavailable). -/
structure Env where
  expenses : String → Option ExpenseData
  llmAnalysis : ExpenseData → String → Except String AnalyzerOutput
  imageAnalysis : String → Except String AnalyzerOutput
  onlineVerification : ExpenseData → Except String AnalyzerOutput
  patternAnalysis : ExpenseData → Except String AnalyzerOutput
  toolCalls : List ToolCall
  now : String
  insertResult : Option String

/-- The body of `_category_specific_verification` (lines 281-319) up to
its handler. `_make_online_verification_call` is a plain, non-async
method, so `await`ing the dict it returns (line 300) raises `TypeError`
before any of its output is used; with no category or no prompt the
method returns `{}` directly. -/
def categorySpecificVerificationBody (env : Env) (st : DetectorState) :
    Except String AnalyzerOutput :=
  let category := st.expense_category
  if category = "" then .ok {}
  else
    match getCategorySpecificPrompt category with
    | none => .ok {}
    | some prompt =>
        let _ := makeOnlineVerificationCall env.now env.toolCalls prompt
        .error "TypeError: object dict cannot be used in await expression"

/-- Model of `_category_specific_verification` (lines 281-319): the handler at
lines 317-319 converts the raised `TypeError` into `{}`, so the method
always contributes an empty result. -/
def categorySpecificVerification (env : Env) (st : DetectorState) :
    AnalyzerOutput :=
  match categorySpecificVerificationBody env st with
  | .ok out => out
  | .error _ => {}

/-- The rendered summary of `_generate_summary` (lines 1660-1712), kept
structured: the assessment label, the two truncated percentages, the
(up to 3) risk-factor lines, the optional verification-highlight lines
with the values they interpolate, and the (up to 2)
manipulation-indicator lines. Only the float-to-text rendering of the
interpolated values is abstracted. -/
structure Summary where
  assessment : String
  fraud_percentage : ℤ
  risk_percentage : ℤ
  key_risk_factors : List String
  date_mismatch : Option (Option JVal × Option JVal)
  amount_mismatch : Option (Option JVal × Option JVal)
  image_indicators : List JVal

/-- The three-tier label of lines 1668-1673, computed from the
truncated fraud percentage. -/
def assessmentLabel (fraudPercentage : ℤ) : String :=
  if fraudPercentage ≥ 80 then "HIGH RISK"
  else if fraudPercentage ≥ 50 then "MODERATE RISK"
  else "LOW RISK"

/-- The `inconsistent_dates` highlight (lines 1689-1692). The outer
`none` models the `AttributeError` raised by `.get` on a non-dict
entry; the inner option is the line, carrying the two interpolated
`.get` values. -/
def dateMismatchLine (vr : List (String × JVal)) :
    Option (Option (Option JVal × Option JVal)) :=
  match dictGet vr "inconsistent_dates" with
  | none => some none
  | some (.dict di) =>
      if jTruthyKey di "date_mismatch" then
        some (some (dictGet di "email_date", dictGet di "receipt_date"))
      else some none
  | some _ => none

/-- The `amount_verification` highlight (lines 1694-1697): shown when
`amount_match` is not truthy. -/
def amountMismatchLine (vr : List (String × JVal)) :
    Option (Option (Option JVal × Option JVal)) :=
  match dictGet vr "amount_verification" with
  | none => some none
  | some (.dict ai) =>
      if !jTruthyKey ai "amount_match" then
        some (some (dictGet ai "expense_data_amount",
          dictGet ai "receipt_amount"))
      else some none
  | some _ => none

/-- Python slicing `indicators[:2]` on the manipulation-indicator
value: defined for lists and strings (a string slices into characters);
any other truthy value raises `TypeError`. -/
def sliceTake2 : JVal → Option (List JVal)
  | .list xs => some (xs.take 2)
  | .str s =>
      some ((s.data.take 2).map (fun c => JVal.str (String.singleton c)))
  | _ => none

/-- The image-analysis section of the summary (lines 1700-1706): shown
only when `image_analysis_results` is truthy, the key present and its
value truthy; at most the first two indicators are listed. -/
def imageIndicatorLines (im : List (String × JVal)) :
    Option (List JVal) :=
  if im.isEmpty then some []
  else
    match dictGet im "manipulation_indicators" with
    | none => some []
    | some v => if pyTruthy v then sliceTake2 v else some []

/-- Model of `_generate_summary` (lines 1660-1712): percentages truncate toward
zero via `int(...)`; the highlight sections are skipped entirely when
`verification_results` is falsy; `none` models the paths where an
interpolation raises and the handler returns the literal
"Error generating summary". -/
def generateSummary (st : DetectorState)
    (overallRiskScore fraudProbability : ℚ) : Option Summary :=
  let riskPct := pyInt (overallRiskScore * 100)
  let fraudPct := pyInt (fraudProbability * 100)
  let dmOpt := if st.verification_results.isEmpty then some none
    else dateMismatchLine st.verification_results
  let amOpt := if st.verification_results.isEmpty then some none
    else amountMismatchLine st.verification_results
  match dmOpt, amOpt, imageIndicatorLines st.image_analysis_results with
  | some dm, some am, some ii =>
      some { assessment := assessmentLabel fraudPct,
             fraud_percentage := fraudPct, risk_percentage := riskPct,
             key_risk_factors := st.risk_factors.take 3,
             date_mismatch := dm, amount_mismatch := am,
             image_indicators := ii }
  | _, _, _ => none

/-- The error raised at line 74 when the expense record cannot be
found: `ValueError(f"Expense {expense_id} not found")`, playing the
spec's `NotFoundError` role. -/
inductive FraudError where
  | notFound (expenseId : String)
  deriving DecidableEq

/-- The five dispatched analyses. -/
inductive AnalyzerName where
  | llm
  | image
  | online
  | pattern
  | category
  deriving DecidableEq

/-- The record handed to the `receipt_fraud_checks` insert
(lines 442-450). -/
structure InsertPayload where
  expense_id : String
  overall_risk_score : ℚ
  fraud_probability : ℚ
  risk_factors : List String
  verification_results : List (String × JVal)
  image_analysis_results : List (String × JVal)
  online_verification_results : List (String × JVal)

/-- The dict returned by a successful `analyze_receipt`
(lines 127-136). -/
structure FinalResult where
  fraud_check_id : Option String
  overall_risk_score : ℚ
  fraud_probability : ℚ
  risk_factors : List String
  verification_results : List (String × JVal)
  image_analysis_results : List (String × JVal)
  online_verification_results : List (String × JVal)
  summary : Option Summary

/-- One full `analyze_receipt` run: the outcome of the `try` body plus
the observable effects — which analyzers were dispatched and the insert
payload when persistence was attempted. The outer handler at
lines 138-140 converts a raised error into the empty dict `{}`, which
is not verdict-shaped. -/
structure Run where
  body : Except FraudError FinalResult
  dispatched : List AnalyzerName
  insertAttempted : Option InsertPayload

/-- The detector state after the merge phase of `analyze_receipt`
(lines 77-111): the lower-cased category, the four parallel analyzer
results merged under failure isolation, then the (always empty)
category-verification contribution. The source gives no completion
order among the four parallel analyzers; submission order is used here,
and the properties proved of the merge do not depend on it. -/
def finalState (env : Env) (data : ExpenseData) (fileUrl : String) :
    DetectorState :=
  let st0 : DetectorState :=
    { expense_category := (data.category.getD "").toLower }
  let st1 := applyOutcome st0 (env.llmAnalysis data fileUrl)
  let st2 := applyOutcome st1 (env.imageAnalysis fileUrl)
  let st3 := applyOutcome st2 (env.onlineVerification data)
  let st4 := applyOutcome st3 (env.patternAnalysis data)
  applyCategoryOutput st4 (categorySpecificVerification env st4)

/-- Model of `analyze_receipt` (lines 59-140): look up the expense — raising the
not-found error when absent, before any dispatch — otherwise dispatch
the analyzers, merge, score, summarize and persist. -/
def analyzeReceipt (env : Env) (expenseId : String) (fileUrl : String) :
    Run :=
  match env.expenses expenseId with
  | none =>
      { body := .error (.notFound expenseId), dispatched := [],
        insertAttempted := none }
  | some data =>
      let st := finalState env data fileUrl
      let risk := calculateRiskScore st
      let prob := calculateFraudProbability st
      let payload : InsertPayload :=
        { expense_id := expenseId, overall_risk_score := risk,
          fraud_probability := prob, risk_factors := st.risk_factors,
          verification_results := st.verification_results,
          image_analysis_results := st.image_analysis_results,
          online_verification_results := st.online_verification_results }
      { body := .ok
          { fraud_check_id := env.insertResult,
            overall_risk_score := risk, fraud_probability := prob,
            risk_factors := st.risk_factors,
            verification_results := st.verification_results,
            image_analysis_results := st.image_analysis_results,
            online_verification_results := st.online_verification_results,
            summary := generateSummary st risk prob },
        dispatched := [.llm, .image, .online, .pattern, .category],
        insertAttempted := some payload }

/-- The outputs of the parallel analyzers that completed successfully,
in dispatch order. -/
def okOutputs (env : Env) (data : ExpenseData) (fileUrl : String) :
    List AnalyzerOutput :=
  [env.llmAnalysis data fileUrl, env.imageAnalysis fileUrl,
   env.onlineVerification data,
   env.patternAnalysis data].filterMap Except.toOption

end Expensync

namespace Expensync

/-- Claim C1: For an expense id that does not resolve to a record, the
run fails with the not-found error, performs no analyzer dispatch,
attempts no persistence, and the caller receives no verdict-shaped
result (the outer handler turns the error into the empty dict). -/
theorem analyzeReceipt_notFound (env : Env) (expenseId fileUrl : String)
    (h : env.expenses expenseId = none) :
    (analyzeReceipt env expenseId fileUrl).body =
        .error (.notFound expenseId) ∧
      (analyzeReceipt env expenseId fileUrl).dispatched = [] ∧
      (analyzeReceipt env expenseId fileUrl).insertAttempted = none ∧
      (analyzeReceipt env expenseId fileUrl).body.toOption = none := by
  unfold analyzeReceipt
  rw [h]
  exact ⟨rfl, rfl, rfl, rfl⟩

/-- Environment used to witness C1: an empty expense store. -/
def emptyStoreEnv : Env :=
  { expenses := fun _ => none,
    llmAnalysis := fun _ _ => .ok {},
    imageAnalysis := fun _ => .ok {},
    onlineVerification := fun _ => .ok {},
    patternAnalysis := fun _ => .ok {},
    toolCalls := [], now := "", insertResult := none }

/-- Witness for C1: a concrete missing id aborts with the not-found
error and no effects. -/
theorem analyzeReceipt_notFound_witness :
    (analyzeReceipt emptyStoreEnv "missing-id" "http://r/1.png").body =
        .error (.notFound "missing-id") ∧
      (analyzeReceipt emptyStoreEnv "missing-id"
        "http://r/1.png").dispatched = [] ∧
      (analyzeReceipt emptyStoreEnv "missing-id"
        "http://r/1.png").insertAttempted = none ∧
      (analyzeReceipt emptyStoreEnv "missing-id"
        "http://r/1.png").body.toOption = none :=
  analyzeReceipt_notFound emptyStoreEnv "missing-id" "http://r/1.png" rfl

theorem dictUpdate_nil (d : List (String × JVal)) : dictUpdate d [] = d :=
  rfl

theorem categorySpecificVerification_empty (env : Env)
    (st : DetectorState) :
    categorySpecificVerification env st = {} := by
  unfold categorySpecificVerification categorySpecificVerificationBody
  by_cases h : st.expense_category = ""
  · rw [if_pos h]
  · rw [if_neg h]
    rcases hp : getCategorySpecificPrompt st.expense_category with _ | p <;>
      rfl

theorem applyCategoryOutput_empty (st : DetectorState) :
    applyCategoryOutput st {} = st := by
  unfold applyCategoryOutput
  simp [dictUpdate_nil]

theorem finalState_risk_factors (env : Env) (data : ExpenseData)
    (fileUrl : String) :
    (finalState env data fileUrl).risk_factors =
      (okOutputs env data fileUrl).flatMap (fun o => o.risk_factors) := by
  unfold finalState okOutputs
  dsimp only
  rw [categorySpecificVerification_empty, applyCategoryOutput_empty]
  rcases env.llmAnalysis data fileUrl with e1 | o1 <;>
    rcases env.imageAnalysis fileUrl with e2 | o2 <;>
    rcases env.onlineVerification data with e3 | o3 <;>
    rcases env.patternAnalysis data with e4 | o4 <;>
    simp [applyOutcome, applyAnalyzerOutput, Except.toOption]

theorem finalState_verification_results (env : Env) (data : ExpenseData)
    (fileUrl : String) :
    (finalState env data fileUrl).verification_results =
      (okOutputs env data fileUrl).foldl
        (fun acc o => dictUpdate acc o.verification_results) [] := by
  unfold finalState okOutputs
  dsimp only
  rw [categorySpecificVerification_empty, applyCategoryOutput_empty]
  rcases env.llmAnalysis data fileUrl with e1 | o1 <;>
    rcases env.imageAnalysis fileUrl with e2 | o2 <;>
    rcases env.onlineVerification data with e3 | o3 <;>
    rcases env.patternAnalysis data with e4 | o4 <;>
    simp [applyOutcome, applyAnalyzerOutput, Except.toOption, dictUpdate_nil]

end Expensync

namespace Expensync

/-- Claim C2: Whenever the expense resolves, `analyze_receipt` returns a
verdict for every combination of failing parallel analyzers: the risk
factors and verification entries come only from the analyzers that
completed (each failing analyzer contributes neither), and the overall
risk score is the weighted sum in which every failed category scores
0. -/
theorem analyzeReceipt_failure_isolation (env : Env)
    (expenseId fileUrl : String) (data : ExpenseData)
    (h : env.expenses expenseId = some data) :
    ∃ r : FinalResult,
      (analyzeReceipt env expenseId fileUrl).body = .ok r ∧
      r.risk_factors =
        (okOutputs env data fileUrl).flatMap (fun o => o.risk_factors) ∧
      r.verification_results =
        (okOutputs env data fileUrl).foldl
          (fun acc o => dictUpdate acc o.verification_results) [] ∧
      r.overall_risk_score =
        weightedRiskScore
          (match env.llmAnalysis data fileUrl with
            | .ok _ => llmRiskScore (finalState env data fileUrl)
            | .error _ => 0)
          (match env.imageAnalysis fileUrl with
            | .ok _ => imageRiskScore (finalState env data fileUrl)
            | .error _ => 0)
          (match env.onlineVerification data with
            | .ok _ => verificationRiskScore (finalState env data fileUrl)
            | .error _ => 0)
          (match env.patternAnalysis data with
            | .ok _ => patternRiskScore (finalState env data fileUrl)
            | .error _ => 0)
          (categorySpecificRiskScore (finalState env data fileUrl)) := by
  unfold analyzeReceipt
  rw [h]
  refine ⟨_, rfl, finalState_risk_factors env data fileUrl,
    finalState_verification_results env data fileUrl, ?_⟩
  have hscore : ∀ st : DetectorState, calculateRiskScore st =
      weightedRiskScore 0 0 0 0 (categorySpecificRiskScore st) := fun _ =>
    rfl
  rw [hscore]
  rcases env.llmAnalysis data fileUrl with e1 | o1 <;>
    rcases env.imageAnalysis fileUrl with e2 | o2 <;>
    rcases env.onlineVerification data with e3 | o3 <;>
    rcases env.patternAnalysis data with e4 | o4 <;>
    rfl

/-- Environment used to witness C2: the expense exists and all four
parallel analyzers raise. -/
def allFailEnv : Env :=
  { expenses := fun _ => some { category := some "travel" },
    llmAnalysis := fun _ _ => .error "connection reset",
    imageAnalysis := fun _ => .error "connection reset",
    onlineVerification := fun _ => .error "connection reset",
    patternAnalysis := fun _ => .error "connection reset",
    toolCalls := [], now := "", insertResult := some "check-1" }

/-- Witness for C2: with all four parallel analyzers raising, a verdict
is still returned and the failed analyzers contributed nothing. -/
theorem analyzeReceipt_failure_isolation_witness :
    ∃ r : FinalResult,
      (analyzeReceipt allFailEnv "e1" "http://r/1.png").body = .ok r ∧
      r.risk_factors =
        (okOutputs allFailEnv { category := some "travel" }
          "http://r/1.png").flatMap (fun o => o.risk_factors) := by
  obtain ⟨r, h1, h2, -, -⟩ := analyzeReceipt_failure_isolation allFailEnv
    "e1" "http://r/1.png" { category := some "travel" } rfl
  exact ⟨r, h1, h2⟩

end Expensync

namespace Expensync

theorem assessmentLabel_iff (p : ℚ) (hp : 0 ≤ p) :
    (assessmentLabel (pyInt (p * 100)) = "HIGH RISK" ↔ 4/5 ≤ p) ∧
    (assessmentLabel (pyInt (p * 100)) = "MODERATE RISK" ↔
      (1/2 ≤ p ∧ p < 4/5)) ∧
    (assessmentLabel (pyInt (p * 100)) = "LOW RISK" ↔ p < 1/2) := by
  have hfl : pyInt (p * 100) = ⌊p * 100⌋ := if_pos (by positivity)
  have h80 : ((80 : ℤ) ≤ ⌊p * 100⌋) ↔ 4/5 ≤ p := by
    rw [Int.le_floor]
    constructor
    · intro hx
      push_cast at hx
      linarith
    · intro hx
      push_cast
      linarith
  have h50 : ((50 : ℤ) ≤ ⌊p * 100⌋) ↔ 1/2 ≤ p := by
    rw [Int.le_floor]
    constructor
    · intro hx
      push_cast at hx
      linarith
    · intro hx
      push_cast
      linarith
  rw [hfl]
  unfold assessmentLabel
  by_cases hc80 : (80 : ℤ) ≤ ⌊p * 100⌋
  · rw [if_pos hc80]
    have hp80 : 4/5 ≤ p := h80.mp hc80
    exact ⟨⟨fun _ => hp80, fun _ => rfl⟩,
      ⟨fun hx => absurd hx (by decide), fun hx => absurd hx.2 (by linarith)⟩,
      ⟨fun hx => absurd hx (by decide), fun hx => absurd hx (by linarith)⟩⟩
  · rw [if_neg hc80]
    have hlt : p < 4/5 := by
      by_contra hge
      exact hc80 (h80.mpr (le_of_not_lt hge))
    by_cases hc50 : (50 : ℤ) ≤ ⌊p * 100⌋
    · rw [if_pos hc50]
      have hp50 : 1/2 ≤ p := h50.mp hc50
      exact ⟨⟨fun hx => absurd hx (by decide),
          fun hx => absurd hlt (by linarith)⟩,
        ⟨fun _ => ⟨hp50, hlt⟩, fun _ => rfl⟩,
        ⟨fun hx => absurd hx (by decide), fun hx => absurd hx (by linarith)⟩⟩
    · rw [if_neg hc50]
      have hlt2 : p < 1/2 := by
        by_contra hge
        exact hc50 (h50.mpr (le_of_not_lt hge))
      exact ⟨⟨fun hx => absurd hx (by decide),
          fun hx => absurd hx (by linarith)⟩,
        ⟨fun hx => absurd hx (by decide),
          fun hx => absurd hx.1 (by linarith)⟩,
        ⟨fun _ => hlt2, fun _ => rfl⟩⟩

theorem imageIndicatorLines_le_two (im : List (String × JVal))
    (ii : List JVal) (h : imageIndicatorLines im = some ii) :
    ii.length ≤ 2 := by
  unfold imageIndicatorLines at h
  split_ifs at h with h1
  · cases h
    simp
  · rcases hm : dictGet im "manipulation_indicators" with _ | v <;>
      rw [hm] at h <;> dsimp only at h
    · cases h
      simp
    · split_ifs at h with h2
      · rcases v with _ | b | q | s | xs | kvs
        · cases h
        · cases h
        · cases h
        · cases h
          simp only [List.length_map, List.length_take]
          omega
        · cases h
          simp only [List.length_take]
          omega
        · cases h
      · cases h
        simp

end Expensync

namespace Expensync

/-- Claim C7: A summary produced by `_generate_summary` labels the
verdict HIGH exactly when `fraud_probability >= 0.8`, MODERATE exactly
when `0.5 <= fraud_probability < 0.8`, LOW otherwise, and lists at most
the first 3 accumulated risk factors and at most 2 image-manipulation
indicators. -/
theorem generateSummary_spec (st : DetectorState) (risk prob : ℚ)
    (s : Summary) (hp : 0 ≤ prob)
    (h : generateSummary st risk prob = some s) :
    (s.assessment = "HIGH RISK" ↔ 4/5 ≤ prob) ∧
    (s.assessment = "MODERATE RISK" ↔ (1/2 ≤ prob ∧ prob < 4/5)) ∧
    (s.assessment = "LOW RISK" ↔ prob < 1/2) ∧
    s.key_risk_factors = st.risk_factors.take 3 ∧
    s.key_risk_factors.length ≤ 3 ∧
    s.image_indicators.length ≤ 2 := by
  unfold generateSummary at h
  dsimp only at h
  rcases hdm : (if st.verification_results.isEmpty then
      (some none : Option (Option (Option JVal × Option JVal)))
    else dateMismatchLine st.verification_results) with _ | dm <;>
    rw [hdm] at h
  · cases h
  rcases ham : (if st.verification_results.isEmpty then
      (some none : Option (Option (Option JVal × Option JVal)))
    else amountMismatchLine st.verification_results) with _ | am <;>
    rw [ham] at h
  · cases h
  rcases hii : imageIndicatorLines st.image_analysis_results with _ | ii <;>
    rw [hii] at h
  · cases h
  obtain rfl := (Option.some.inj h).symm
  obtain ⟨hA, hB, hC⟩ := assessmentLabel_iff prob hp
  refine ⟨hA, hB, hC, rfl, ?_, imageIndicatorLines_le_two _ _ hii⟩
  simp only [List.length_take]
  omega

/-- Witness for C7: an empty state with fraud probability 0.9 yields a
summary labelled HIGH RISK. -/
theorem generateSummary_spec_witness :
    ∃ s : Summary, generateSummary {} 0 (9/10) = some s ∧
      s.assessment = "HIGH RISK" := by
  obtain ⟨s, hs⟩ : ∃ s, generateSummary {} 0 (9/10) = some s := ⟨_, rfl⟩
  exact ⟨s, hs,
    ((generateSummary_spec {} 0 (9/10) s (by norm_num) hs).1).mpr
      (by norm_num)⟩

end Expensync
